import Mathlib

/-!
Verification of the backend identity-and-playlist service of the
Miunave media-player app (`src/index.js`).

The backend is an Express app over a relational store with three tables
(`users`, `playlists`, `playlist_songs`), JWT cookie sessions, and
ownership-scoped playlist routes.  Following the spec's design note, the
relational prepared-statement semantics is the authoritative contract
(the in-memory array helpers in the file are dead code).  We embed:

* the three tables as lists of records inside a `DB` structure, with the
  AUTOINCREMENT counters made explicit;
* JWT signing/verification (`jsonwebtoken` semantics: a token is valid
  iff the signature matches the server secret and the clock timestamp
  is strictly below the embedded `exp`);
* each route handler as a pure function from the database (and, where
  used, the caller identity resolved by the auth middleware) to an HTTP
  response, with mutating routes also returning the new database;
* bcrypt hashing/comparison as function parameters, since their
  behaviour is opaque to the routes.

Responses are `status` plus a `Body`; JSON objects whose exact field
layout matters are rendered as ordered `(field name, value)` lists.
-/

namespace Miunave

/-- A JSON scalar value appearing in a response field. -/
inductive Val where
  | vNat : Nat → Val
  | vStr : String → Val
deriving DecidableEq, Repr

/-- Row of the `users` table:
`id INTEGER PRIMARY KEY AUTOINCREMENT, nombre TEXT, email TEXT UNIQUE,
password TEXT, created_at DATETIME` (src/index.js lines 28-34).
`password` stores the bcrypt hash. -/
structure User where
  id : Nat
  nombre : String
  email : String
  password : String
  created_at : Nat
deriving DecidableEq, Repr

/-- Row of the `playlists` table:
`id INTEGER PRIMARY KEY AUTOINCREMENT, nombre TEXT, user_id INTEGER,
created_at DATETIME` (src/index.js lines 36-42). -/
structure Playlist where
  id : Nat
  nombre : String
  user_id : Nat
  created_at : Nat
deriving DecidableEq, Repr

/-- Row of the `playlist_songs` table:
`playlist_id INTEGER, song_path TEXT, added_at DATETIME,
PRIMARY KEY(playlist_id, song_path)` (src/index.js lines 44-50). -/
structure PlaylistSong where
  playlist_id : Nat
  song_path : String
  added_at : Nat
deriving DecidableEq, Repr

/-- The relational store, rows kept in insertion order, together with
the AUTOINCREMENT counters of the two tables that have one. -/
structure DB where
  users : List User
  playlists : List Playlist
  playlist_songs : List PlaylistSong
  next_user_id : Nat
  next_playlist_id : Nat
deriving DecidableEq, Repr

/-- The empty database right after the three `CREATE TABLE` statements. -/
def DB.init : DB :=
  { users := [], playlists := [], playlist_songs := []
    next_user_id := 1, next_playlist_id := 1 }

/-- A JSON response body.  Bodies that are a bare `{message: ...}` object
use `msg`; object payloads whose field layout matters are ordered
field lists; `songsB` is the `{songs: [path, ...]}` array payload. -/
inductive Body where
  | msg : String → Body
  | userB : List (String × Val) → Body
  | playlistB : List (String × Val) → Body
  | playlistsB : List (List (String × Val)) → Body
  | songsB : List String → Body
deriving DecidableEq, Repr

/-- An HTTP response: status code and JSON body. -/
structure Resp where
  status : Nat
  body : Body
deriving DecidableEq, Repr

/-! ## Session tokens (`jsonwebtoken`) -/

/-- The payload signed at login: `{ id, email, nombre }`
(src/index.js lines 104-108). -/
structure TokenPayload where
  id : Nat
  email : String
  nombre : String
deriving DecidableEq, Repr

/-- A structurally well-formed JWT: payload, issued-at and expiry
timestamps (seconds), and the secret that produced its signature.
`sig` records which secret signed the token: verification against a
server secret succeeds only when they coincide. -/
structure Token where
  payload : TokenPayload
  iat : Nat
  exp : Nat
  sig : String
deriving DecidableEq, Repr

/-- Seconds in the `'7d'` lifetime of `JWT_EXPIRES` (src/index.js line 11). -/
def jwtExpiresSeconds : Nat := 7 * 24 * 60 * 60

/-- `jwt.sign(payload, secret, { expiresIn: '7d' })` at clock time `now`
(seconds): embeds `iat = now` and `exp = now + 7 days`. -/
def jwtSign (p : TokenPayload) (secret : String) (now : Nat) : Token :=
  { payload := p, iat := now, exp := now + jwtExpiresSeconds, sig := secret }

/-- `jwt.verify(token, secret)` at clock time `now`: succeeds iff the
signature matches `secret` and `now` is strictly before `exp`
(jsonwebtoken throws `TokenExpiredError` when the clock timestamp is
`>= exp`). -/
def jwtVerify (t : Token) (secret : String) (now : Nat) : Option TokenPayload :=
  if t.sig = secret then
    if now < t.exp then some t.payload else none
  else none

/-- What the auth middleware finds in the `token` cookie: nothing, a
string that is not a JWT at all, or a structurally valid token. -/
inductive Cookie where
  | missing
  | malformed (raw : String)
  | signed (t : Token)
deriving DecidableEq, Repr

/-- `authMiddleware` (src/index.js lines 60-73): with no cookie it
responds 401 `'No autenticado'`; if `jwt.verify` throws (malformed
string, wrong signature, or expired) it responds 401 `'Token inválido'`;
otherwise it attaches the decoded payload and lets the handler run. -/
def authMiddleware (c : Cookie) (secret : String) (now : Nat) :
    Except Resp TokenPayload :=
  match c with
  | .missing => .error ⟨401, .msg "No autenticado"⟩
  | .malformed _ => .error ⟨401, .msg "Token inválido"⟩
  | .signed t =>
    match jwtVerify t secret now with
    | some p => .ok p
    | none => .error ⟨401, .msg "Token inválido"⟩

/-! ## Authentication routes -/

/-- `SELECT * FROM users WHERE email = ?` followed by `.get`: the first
matching row, if any (src/index.js line 94). -/
def findUserByEmail (db : DB) (email : String) : Option User :=
  db.users.find? (fun u => u.email == email)

/-- `POST /api/register` (src/index.js lines 76-88).  `bhash` stands for
`bcrypt.hash(·, 10)`.  The `INSERT INTO users` hits the UNIQUE
constraint on `email` when a row with that email already exists, which
the handler catches as a 400; otherwise the row is inserted with the
next AUTOINCREMENT id and the handler responds 201. -/
def register (bhash : String → String) (db : DB)
    (nombre email password : String) (now : Nat) : Resp × DB :=
  if db.users.any (fun u => u.email == email) then
    (⟨400, .msg "Error al registrar usuario"⟩, db)
  else
    (⟨201, .msg "Usuario registrado exitosamente"⟩,
     { db with
        users := db.users ++
          [{ id := db.next_user_id, nombre := nombre, email := email
             password := bhash password, created_at := now }]
        next_user_id := db.next_user_id + 1 })

/-- `POST /api/login` (src/index.js lines 90-126).  `bcompare` stands for
`bcrypt.compare(plaintext, storedHash)`.  Unknown email and wrong
password both yield 400 `'Credenciales inválidas'`; success signs a
token, sets the cookie, and responds with
`{ user: { id, email, nombre } }` — the second component is the token
placed in the cookie. -/
def login (bcompare : String → String → Bool) (db : DB)
    (email password secret : String) (now : Nat) : Resp × Option Token :=
  match findUserByEmail db email with
  | none => (⟨400, .msg "Credenciales inválidas"⟩, none)
  | some user =>
    if bcompare password user.password then
      (⟨200, .userB [("id", .vNat user.id), ("email", .vStr user.email),
                     ("nombre", .vStr user.nombre)]⟩,
       some (jwtSign ⟨user.id, user.email, user.nombre⟩ secret now))
    else
      (⟨400, .msg "Credenciales inválidas"⟩, none)

/-! ## Playlist routes

Each guarded handler below takes the caller id `uid` already resolved by
`authMiddleware` (`req.user.id`). -/

/-- The shared ownership-scoped lookup
`SELECT * FROM playlists WHERE id = ? AND user_id = ?` followed by
`.get` (src/index.js lines 176-178, 199-201, 222-224). -/
def getOwnedPlaylist (db : DB) (pid uid : Nat) : Option Playlist :=
  db.playlists.find? (fun p => p.id == pid && p.user_id == uid)

/-- Predicate of the `(playlist_id, song_path)` primary-key pair. -/
def pairMatch (pid : Nat) (s : String) (r : PlaylistSong) : Bool :=
  r.playlist_id == pid && r.song_path == s

/-- Number of `playlist_songs` rows for a given `(playlist_id, song_path)`
pair. -/
def countPair (db : DB) (pid : Nat) (s : String) : Nat :=
  (db.playlist_songs.filter (pairMatch pid s)).length

/-- `POST /api/playlists/:id/songs` (src/index.js lines 170-192): resolve
the playlist scoped to the caller; absent means 404
`'Playlist no encontrada'`; otherwise
`INSERT OR IGNORE INTO playlist_songs` — a no-op when the primary-key
pair already has a row — and respond 201 `'Canción agregada'`. -/
def addSong (db : DB) (uid pid : Nat) (songPath : String) (now : Nat) :
    Resp × DB :=
  match getOwnedPlaylist db pid uid with
  | none => (⟨404, .msg "Playlist no encontrada"⟩, db)
  | some _ =>
    (⟨201, .msg "Canción agregada"⟩,
     if db.playlist_songs.any (pairMatch pid songPath) then db
     else { db with playlist_songs := db.playlist_songs ++
              [{ playlist_id := pid, song_path := songPath, added_at := now }] })

/-- `GET /api/playlists/:id/songs` (src/index.js lines 194-215): same
scoped resolution, then
`SELECT song_path FROM playlist_songs WHERE playlist_id = ?` mapped to
its paths, as `{songs: [...]}`. -/
def listSongs (db : DB) (uid pid : Nat) : Resp :=
  match getOwnedPlaylist db pid uid with
  | none => ⟨404, .msg "Playlist no encontrada"⟩
  | some _ =>
    ⟨200, .songsB ((db.playlist_songs.filter
      (fun r => r.playlist_id == pid)).map (fun r => r.song_path))⟩

/-- `DELETE /api/playlists/:playlistId/songs/:songPath`
(src/index.js lines 217-238): same scoped resolution, then
`DELETE FROM playlist_songs WHERE playlist_id = ? AND song_path = ?`
(removing nothing when no row matches) and respond 200
`'Canción eliminada'`. -/
def removeSong (db : DB) (uid pid : Nat) (songPath : String) : Resp × DB :=
  match getOwnedPlaylist db pid uid with
  | none => (⟨404, .msg "Playlist no encontrada"⟩, db)
  | some _ =>
    (⟨200, .msg "Canción eliminada"⟩,
     { db with playlist_songs :=
        db.playlist_songs.filter (fun r => !(pairMatch pid songPath r)) })

/-! ## `GET /api/playlists` -/

/-- Result of `LEFT JOIN playlist_songs ps ON p.id = ps.playlist_id` for
one playlist row: its matching membership rows, or a single all-NULL
row when there is none. -/
def leftJoinSongs (db : DB) (p : Playlist) : List (Option PlaylistSong) :=
  let matched := db.playlist_songs.filter (fun r => r.playlist_id == p.id)
  if matched.isEmpty then [none] else matched.map some

/-- `COUNT(ps.song_path)` over a group: counts the rows where the joined
column is non-NULL. -/
def sqlCount (rows : List (Option PlaylistSong)) : Nat :=
  (rows.filter Option.isSome).length

/-- One output row of the playlist listing query: `p.*` (all four
playlist columns) followed by the aggregate alias `song_count`. -/
def playlistRowFields (p : Playlist) (cnt : Nat) : List (String × Val) :=
  [("id", .vNat p.id), ("nombre", .vStr p.nombre),
   ("user_id", .vNat p.user_id), ("created_at", .vNat p.created_at),
   ("song_count", .vNat cnt)]

/-- `GET /api/playlists` (src/index.js lines 134-148):
`SELECT p.*, COUNT(ps.song_path) as song_count FROM playlists p LEFT
JOIN playlist_songs ps ON p.id = ps.playlist_id WHERE p.user_id = ?
GROUP BY p.id`, responded as `{playlists: [...]}`.  Groups appear in the
insertion order of the playlist rows. -/
def listPlaylists (db : DB) (uid : Nat) : Resp :=
  ⟨200, .playlistsB ((db.playlists.filter (fun p => p.user_id == uid)).map
    (fun p => playlistRowFields p (sqlCount (leftJoinSongs db p))))⟩

/-- `POST /api/playlists` (src/index.js lines 150-168): insert the
playlist under the caller and echo it back with `song_count: 0`. -/
def createPlaylist (db : DB) (uid : Nat) (nombre : String) (now : Nat) :
    Resp × DB :=
  (⟨201, .playlistB [("id", .vNat db.next_playlist_id),
     ("nombre", .vStr nombre), ("user_id", .vNat uid),
     ("song_count", .vNat 0)]⟩,
   { db with
      playlists := db.playlists ++
        [{ id := db.next_playlist_id, nombre := nombre, user_id := uid
           created_at := now }]
      next_playlist_id := db.next_playlist_id + 1 })

/-- `DELETE FROM playlists WHERE id = ?` under the declared schema
(src/index.js lines 36-50): the foreign key from
`playlist_songs.playlist_id` declares no `ON DELETE` action and the
program never enables SQLite foreign-key enforcement (it is off by
default), so deleting a playlist removes only the playlist row and
leaves its membership rows in place.  No route of the API performs this
deletion; the definition renders what the schema prescribes for it. -/
def deletePlaylist (db : DB) (pid : Nat) : DB :=
  { db with playlists := db.playlists.filter (fun p => !(p.id == pid)) }

/-! ## Concrete fixtures used by witnesses and counterexamples -/

/-- User Ana, id 1. -/
def anaUser : User :=
  { id := 1, nombre := "Ana", email := "ana@x.com", password := "hash1"
    created_at := 0 }

/-- User Beto, id 2. -/
def betoUser : User :=
  { id := 2, nombre := "Beto", email := "beto@x.com", password := "hash2"
    created_at := 0 }

/-- Ana's playlist, id 1. -/
def roadTrip : Playlist :=
  { id := 1, nombre := "Road Trip", user_id := 1, created_at := 0 }

/-- A database with users Ana and Beto, Ana's playlist 1, and one song
in it. -/
def dbA : DB :=
  { users := [anaUser, betoUser], playlists := [roadTrip]
    playlist_songs := [{ playlist_id := 1, song_path := "/musica/a.mp3"
                         added_at := 0 }]
    next_user_id := 3, next_playlist_id := 2 }

/-- The number of `playlist_songs` rows currently associated with a
playlist id — the reference meaning of the derived `songCount`
aggregate. -/
def membershipCount (db : DB) (pid : Nat) : Nat :=
  (db.playlist_songs.filter (fun r => r.playlist_id == pid)).length

/-- Modelled from the spec: the response row shape
`{id, nombre, songCount}` that the spec's API table prescribes for
`GET /api/playlists`.  Stated only to compare against what the code
emits. -/
def specPlaylistRowFields (p : Playlist) (cnt : Nat) : List (String × Val) :=
  [("id", .vNat p.id), ("nombre", .vStr p.nombre), ("songCount", .vNat cnt)]

/-- Modelled from the spec: the `GET /api/playlists` response in the
spec's claimed shape `{playlists: [{id, nombre, songCount}]}`, with
`songCount` the count of associated membership rows. -/
def specListPlaylists (db : DB) (uid : Nat) : Resp :=
  ⟨200, .playlistsB ((db.playlists.filter (fun p => p.user_id == uid)).map
    (fun p => specPlaylistRowFields p (membershipCount db p.id)))⟩

/-! ## Helper lemmas -/

/-- When no playlist row carries both the requested id and the caller as
owner, the ownership-scoped lookup comes back empty. -/
theorem getOwnedPlaylist_eq_none {db : DB} {pid uid : Nat}
    (h : ∀ p ∈ db.playlists, p.id = pid → p.user_id ≠ uid) :
    getOwnedPlaylist db pid uid = none := by
  unfold getOwnedPlaylist
  rw [List.find?_eq_none]
  intro p hp
  simp only [Bool.and_eq_true, beq_iff_eq, not_and]
  exact h p hp

/-! ## Claims -/

/-- C1: for each of `addSong`, `listSongs`, `removeSong`, a caller who
does not own the requested playlist id — whether the id belongs to a
different owner or matches no playlist at all — receives the one fixed
404 response `'Playlist no encontrada'`, with the database untouched;
being a constant, the response cannot reveal which of the two cases
occurred. -/
theorem playlistOps_notFound_indistinguishable
    (db : DB) (uid pid : Nat) (s : String) (now : Nat)
    (h : ∀ p ∈ db.playlists, p.id = pid → p.user_id ≠ uid) :
    addSong db uid pid s now = (⟨404, .msg "Playlist no encontrada"⟩, db)
    ∧ listSongs db uid pid = ⟨404, .msg "Playlist no encontrada"⟩
    ∧ removeSong db uid pid s = (⟨404, .msg "Playlist no encontrada"⟩, db) := by
  have hnone := getOwnedPlaylist_eq_none h
  refine ⟨?_, ?_, ?_⟩ <;> simp [addSong, listSongs, removeSong, hnone]

/-- Witness for C1: Beto (id 2) calling the three operations on Ana's
playlist 1 gets the fixed 404 response each time. -/
theorem playlistOps_notFound_indistinguishable_witness :
    (∀ p ∈ dbA.playlists, p.id = 1 → p.user_id ≠ 2)
    ∧ addSong dbA 2 1 "/musica/b.mp3" 10
        = (⟨404, .msg "Playlist no encontrada"⟩, dbA)
    ∧ listSongs dbA 2 1 = ⟨404, .msg "Playlist no encontrada"⟩
    ∧ removeSong dbA 2 1 "/musica/b.mp3"
        = (⟨404, .msg "Playlist no encontrada"⟩, dbA) :=
  ⟨by decide,
   playlistOps_notFound_indistinguishable dbA 2 1 "/musica/b.mp3" 10 (by decide)⟩

/-- C2: a registration with an email that some stored user already has
fails with status 400 and leaves the whole database — in particular the
first user's record — unchanged. -/
theorem register_duplicate_email_fails (bhash : String → String) (db : DB)
    (nombre email password : String) (now : Nat) (u : User)
    (hu : u ∈ db.users) (he : u.email = email) :
    (register bhash db nombre email password now).1
      = ⟨400, .msg "Error al registrar usuario"⟩
    ∧ (register bhash db nombre email password now).2 = db := by
  have hdup : db.users.any (fun v => v.email == email) = true := by
    rw [List.any_eq_true]
    exact ⟨u, hu, by simp [he]⟩
  refine ⟨?_, ?_⟩ <;> simp [register, hdup]

/-- Witness for C2: registering a second account under Ana's email in
`dbA` yields 400 and leaves `dbA` unchanged. -/
theorem register_duplicate_email_fails_witness :
    anaUser ∈ dbA.users ∧ anaUser.email = "ana@x.com"
    ∧ (register id dbA "Ana2" "ana@x.com" "pw9" 5).1
        = ⟨400, .msg "Error al registrar usuario"⟩
    ∧ (register id dbA "Ana2" "ana@x.com" "pw9" 5).2 = dbA :=
  ⟨by decide, by decide,
   register_duplicate_email_fails id dbA "Ana2" "ana@x.com" "pw9" 5 anaUser
     (by decide) (by decide)⟩

/-- C4: once the ownership-scoped lookup succeeds, `removeSong` responds
200 `'Canción eliminada'` no matter whether a membership row for the
path exists — removing an absent membership also leaves the table
unchanged — and only a failed ownership lookup produces the 404. -/
theorem removeSong_idempotent_success (db : DB) (uid pid : Nat) (s : String) :
    ((getOwnedPlaylist db pid uid).isSome = true →
      (removeSong db uid pid s).1 = ⟨200, .msg "Canción eliminada"⟩
      ∧ (countPair db pid s = 0 → (removeSong db uid pid s).2 = db))
    ∧ (getOwnedPlaylist db pid uid = none →
      (removeSong db uid pid s).1 = ⟨404, .msg "Playlist no encontrada"⟩) := by
  constructor
  · intro hsome
    obtain ⟨p, hp⟩ := Option.isSome_iff_exists.mp hsome
    refine ⟨by simp [removeSong, hp], ?_⟩
    intro hcount
    have hnil : db.playlist_songs.filter (pairMatch pid s) = [] :=
      List.length_eq_zero.mp hcount
    have hall : ∀ r ∈ db.playlist_songs, (!(pairMatch pid s r)) = true := by
      intro r hr
      have := List.filter_eq_nil_iff.mp hnil r hr
      simpa using this
    have hkeep : db.playlist_songs.filter (fun r => !(pairMatch pid s r))
        = db.playlist_songs := List.filter_eq_self.mpr hall
    simp [removeSong, hp, hkeep]
  · intro hnone
    simp [removeSong, hnone]

/-- Witness for C4: in `dbA`, removing the never-added path `b.mp3` from
Ana's playlist succeeds and changes nothing, while Beto removing from a
nonexistent playlist 7 gets the 404. -/
theorem removeSong_idempotent_success_witness :
    (removeSong dbA 1 1 "/musica/b.mp3").1 = ⟨200, .msg "Canción eliminada"⟩
    ∧ (removeSong dbA 1 1 "/musica/b.mp3").2 = dbA
    ∧ (removeSong dbA 2 7 "/musica/b.mp3").1
        = ⟨404, .msg "Playlist no encontrada"⟩ := by
  have h1 := (removeSong_idempotent_success dbA 1 1 "/musica/b.mp3").1
    (by decide)
  have h2 := (removeSong_idempotent_success dbA 2 7 "/musica/b.mp3").2
    (by decide)
  exact ⟨h1.1, h1.2 (by decide), h2⟩

/-- C7: the login failure response is the same fixed
400 `'Credenciales inválidas'` object both when no user has the email
and when the email exists but the password comparison fails, so the
response does not reveal whether the account exists. -/
theorem login_no_existence_leak (bcompare : String → String → Bool)
    (db : DB) (email password secret : String) (now : Nat) :
    (findUserByEmail db email = none →
      (login bcompare db email password secret now).1
        = ⟨400, .msg "Credenciales inválidas"⟩)
    ∧ (∀ u, findUserByEmail db email = some u →
        bcompare password u.password = false →
      (login bcompare db email password secret now).1
        = ⟨400, .msg "Credenciales inválidas"⟩) := by
  constructor
  · intro hnone
    simp [login, hnone]
  · intro u hu hpw
    simp [login, hu, hpw]

/-- Witness for C7: with bcrypt comparison modelled as string equality
of plaintext and hash, logging in as an unknown email and as Ana with a
wrong password produce the same 400 response. -/
theorem login_no_existence_leak_witness :
    findUserByEmail dbA "nadie@x.com" = none
    ∧ (login (fun a b => a == b) dbA "nadie@x.com" "pw" "s" 0).1
        = ⟨400, .msg "Credenciales inválidas"⟩
    ∧ findUserByEmail dbA "ana@x.com" = some anaUser
    ∧ (login (fun a b => a == b) dbA "ana@x.com" "wrong" "s" 0).1
        = ⟨400, .msg "Credenciales inválidas"⟩ := by
  refine ⟨by decide, ?_, by decide, ?_⟩
  · exact (login_no_existence_leak (fun a b => a == b) dbA "nadie@x.com"
      "pw" "s" 0).1 (by decide)
  · exact (login_no_existence_leak (fun a b => a == b) dbA "ana@x.com"
      "wrong" "s" 0).2 anaUser (by decide) (by decide)

/-- Equation lemma: when the scoped lookup succeeds and the pair already
has a row, `addSong` reports 201 and leaves the database unchanged. -/
theorem addSong_found_present {db : DB} {uid pid : Nat} {s : String}
    (now : Nat) {p : Playlist}
    (hp : getOwnedPlaylist db pid uid = some p)
    (hany : db.playlist_songs.any (pairMatch pid s) = true) :
    addSong db uid pid s now = (⟨201, .msg "Canción agregada"⟩, db) := by
  unfold addSong
  rw [hp, hany]
  rfl

/-- Equation lemma: when the scoped lookup succeeds and the pair has no
row, `addSong` reports 201 and appends the membership row. -/
theorem addSong_found_absent {db : DB} {uid pid : Nat} {s : String}
    (now : Nat) {p : Playlist}
    (hp : getOwnedPlaylist db pid uid = some p)
    (hany : db.playlist_songs.any (pairMatch pid s) = false) :
    addSong db uid pid s now = (⟨201, .msg "Canción agregada"⟩,
      { db with playlist_songs := db.playlist_songs
          ++ [{ playlist_id := pid, song_path := s, added_at := now }] }) := by
  unfold addSong
  rw [hp, hany]
  rfl

/-- C3: on an owned playlist whose membership table satisfies the
primary-key uniqueness of `(playlist_id, song_path)`, adding the same
path twice leaves exactly one membership row for the pair; the second
call changes nothing and still reports the 201 success. -/
theorem addSong_idempotent (db : DB) (uid pid : Nat) (s : String)
    (now1 now2 : Nat) (p : Playlist)
    (hp : getOwnedPlaylist db pid uid = some p)
    (huniq : countPair db pid s ≤ 1) :
    countPair (addSong (addSong db uid pid s now1).2 uid pid s now2).2 pid s = 1
    ∧ (addSong (addSong db uid pid s now1).2 uid pid s now2).1
        = ⟨201, .msg "Canción agregada"⟩
    ∧ (addSong (addSong db uid pid s now1).2 uid pid s now2).2
        = (addSong db uid pid s now1).2 := by
  cases hany : db.playlist_songs.any (pairMatch pid s) with
  | true =>
    have e1 := addSong_found_present now1 hp hany
    have e2 := addSong_found_present now2 hp hany
    have hcnt : countPair db pid s = 1 := by
      obtain ⟨x, hx, hpx⟩ := List.any_eq_true.mp hany
      have hmem : x ∈ db.playlist_songs.filter (pairMatch pid s) :=
        List.mem_filter.mpr ⟨hx, hpx⟩
      have hpos : 0 < countPair db pid s :=
        List.length_pos.mpr (List.ne_nil_of_mem hmem)
      omega
    refine ⟨?_, ?_, ?_⟩
    · simp only [e1, e2]
      exact hcnt
    · simp only [e1, e2]
    · simp only [e1, e2]
  | false =>
    have e1 := addSong_found_absent now1 hp hany
    have hp1 : getOwnedPlaylist
        { db with playlist_songs := db.playlist_songs
            ++ [{ playlist_id := pid, song_path := s, added_at := now1 }] }
        pid uid = some p := hp
    have hany1 : ({ db with playlist_songs := db.playlist_songs
        ++ [{ playlist_id := pid, song_path := s, added_at := now1 }]
        : DB }).playlist_songs.any (pairMatch pid s) = true := by
      simp [pairMatch]
    have e2 := addSong_found_present now2 hp1 hany1
    have hfil : db.playlist_songs.filter (pairMatch pid s) = [] := by
      rw [List.filter_eq_nil_iff]
      exact List.any_eq_false.mp hany
    refine ⟨?_, ?_, ?_⟩ <;> simp only [e1, e2]
    unfold countPair
    simp [List.filter_append, hfil, pairMatch]

/-- Witness for C3: Ana adds `b.mp3` to her playlist twice starting from
`dbA`, where the pair has no row yet; exactly one row results and the
second call is a successful no-op. -/
theorem addSong_idempotent_witness :
    getOwnedPlaylist dbA 1 1 = some roadTrip
    ∧ countPair dbA 1 "/musica/b.mp3" ≤ 1
    ∧ countPair (addSong (addSong dbA 1 1 "/musica/b.mp3" 1).2
        1 1 "/musica/b.mp3" 2).2 1 "/musica/b.mp3" = 1
    ∧ (addSong (addSong dbA 1 1 "/musica/b.mp3" 1).2 1 1 "/musica/b.mp3" 2).1
        = ⟨201, .msg "Canción agregada"⟩
    ∧ (addSong (addSong dbA 1 1 "/musica/b.mp3" 1).2 1 1 "/musica/b.mp3" 2).2
        = (addSong dbA 1 1 "/musica/b.mp3" 1).2 :=
  ⟨by decide, by decide,
   addSong_idempotent dbA 1 1 "/musica/b.mp3" 1 2 roadTrip
     (by decide) (by decide)⟩

/-- C5: a token signed at time `T` with the server secret verifies
against that secret exactly when the clock is strictly within 7 days of
`T`; in particular it verifies at `T` + 6 days and fails at
`T` + 8 days. -/
theorem token_seven_day_expiry (p : TokenPayload) (secret : String)
    (T now : Nat) :
    (jwtVerify (jwtSign p secret T) secret now = some p
      ↔ now < T + 7 * 24 * 60 * 60)
    ∧ jwtVerify (jwtSign p secret T) secret (T + 6 * 24 * 60 * 60) = some p
    ∧ jwtVerify (jwtSign p secret T) secret (T + 8 * 24 * 60 * 60) = none := by
  have hval : ∀ n : Nat, jwtVerify (jwtSign p secret T) secret n
      = if n < T + jwtExpiresSeconds then some p else none := by
    intro n
    simp [jwtVerify, jwtSign]
  refine ⟨?_, ?_, ?_⟩
  · rw [hval]
    by_cases h : now < T + jwtExpiresSeconds
    · rw [if_pos h]
      unfold jwtExpiresSeconds at h
      simp
      omega
    · rw [if_neg h]
      unfold jwtExpiresSeconds at h
      simp
      omega
  · rw [hval, if_pos (by unfold jwtExpiresSeconds; omega)]
  · rw [hval, if_neg (by unfold jwtExpiresSeconds; omega)]

/-- Counterexample to C6: a request with no `token` cookie is rejected
with body `'No autenticado'` while a request with an expired
(correctly-signed) token is rejected with body `'Token inválido'` —
both 401, but distinguishable bodies, so the four failure causes do not
all produce identical responses. -/
theorem authMiddleware_missing_vs_expired_differ :
    authMiddleware .missing "dev_secret_change_me" 700000
      = .error ⟨401, .msg "No autenticado"⟩
    ∧ authMiddleware
        (.signed (jwtSign ⟨1, "ana@x.com", "Ana"⟩ "dev_secret_change_me" 0))
        "dev_secret_change_me" 700000
      = .error ⟨401, .msg "Token inválido"⟩
    ∧ Resp.mk 401 (.msg "No autenticado") ≠ Resp.mk 401 (.msg "Token inválido") :=
  ⟨rfl, rfl, by decide⟩

/-- C6 amended: every guarded request whose token is missing, malformed,
mis-signed, or expired is rejected with status 401 before the handler
runs; the three `jwt.verify` failures (malformed, mis-signed, expired)
share the identical body `'Token inválido'`, but the missing-cookie
rejection carries the distinct body `'No autenticado'`. -/
theorem authMiddleware_rejects_all_failures (secret : String) (now : Nat)
    (raw : String) (t : Token) :
    authMiddleware .missing secret now = .error ⟨401, .msg "No autenticado"⟩
    ∧ authMiddleware (.malformed raw) secret now
        = .error ⟨401, .msg "Token inválido"⟩
    ∧ (t.sig ≠ secret → authMiddleware (.signed t) secret now
        = .error ⟨401, .msg "Token inválido"⟩)
    ∧ (t.exp ≤ now → authMiddleware (.signed t) secret now
        = .error ⟨401, .msg "Token inválido"⟩) := by
  refine ⟨rfl, rfl, ?_, ?_⟩
  · intro hsig
    simp [authMiddleware, jwtVerify, hsig]
  · intro hexp
    by_cases hsig : t.sig = secret
    · simp [authMiddleware, jwtVerify, hsig, Nat.not_lt.mpr hexp]
    · simp [authMiddleware, jwtVerify, hsig]

/-- Witness for the amended C6: concrete rejections for a missing
cookie, a malformed cookie, a token signed with another secret, and an
expired token. -/
theorem authMiddleware_rejects_all_failures_witness :
    authMiddleware .missing "s" 0 = .error ⟨401, .msg "No autenticado"⟩
    ∧ authMiddleware (.malformed "zz") "s" 0
        = .error ⟨401, .msg "Token inválido"⟩
    ∧ authMiddleware (.signed ⟨⟨1, "e", "n"⟩, 0, 604800, "other"⟩) "s" 0
        = .error ⟨401, .msg "Token inválido"⟩
    ∧ authMiddleware (.signed ⟨⟨1, "e", "n"⟩, 0, 10, "s"⟩) "s" 10
        = .error ⟨401, .msg "Token inválido"⟩ :=
  ⟨(authMiddleware_rejects_all_failures "s" 0 "zz"
      ⟨⟨1, "e", "n"⟩, 0, 604800, "other"⟩).1,
   (authMiddleware_rejects_all_failures "s" 0 "zz"
      ⟨⟨1, "e", "n"⟩, 0, 604800, "other"⟩).2.1,
   (authMiddleware_rejects_all_failures "s" 0 "zz"
      ⟨⟨1, "e", "n"⟩, 0, 604800, "other"⟩).2.2.1 (by decide),
   (authMiddleware_rejects_all_failures "s" 10 "zz"
      ⟨⟨1, "e", "n"⟩, 0, 10, "s"⟩).2.2.2 (by decide)⟩

/-- Counterexample to C8: in `dbA`, deleting playlist 1 removes the
playlist row but its membership row for `/musica/a.mp3` survives with
`playlist_id = 1`, so membership rows do remain after the deletion. -/
theorem deletePlaylist_orphan_counterexample :
    (deletePlaylist dbA 1).playlists = []
    ∧ (deletePlaylist dbA 1).playlist_songs
        = [{ playlist_id := 1, song_path := "/musica/a.mp3", added_at := 0 }]
    ∧ ¬ (∀ r ∈ (deletePlaylist dbA 1).playlist_songs, r.playlist_id ≠ 1) := by
  refine ⟨rfl, rfl, ?_⟩
  decide

/-- C8 amended: the schema's foreign key carries no `ON DELETE CASCADE`
(and SQLite foreign-key enforcement is never enabled), so deleting a
playlist removes only the playlist row and leaves every
`playlist_songs` row — including those with the deleted id — exactly as
they were. -/
theorem deletePlaylist_leaves_memberships (db : DB) (pid : Nat) :
    (deletePlaylist db pid).playlist_songs = db.playlist_songs
    ∧ ∀ p ∈ (deletePlaylist db pid).playlists, p.id ≠ pid := by
  refine ⟨rfl, ?_⟩
  intro p hp
  have := (List.mem_filter.mp hp).2
  simpa using this

/-- Witness for the amended C8 at the concrete database `dbA`. -/
theorem deletePlaylist_leaves_memberships_witness :
    (deletePlaylist dbA 1).playlist_songs = dbA.playlist_songs
    ∧ ∀ p ∈ (deletePlaylist dbA 1).playlists, p.id ≠ 1 :=
  deletePlaylist_leaves_memberships dbA 1

/-- The SQL aggregate `COUNT(ps.song_path)` over the LEFT JOIN group of
a playlist equals the number of its membership rows: the all-NULL row
produced by an empty join contributes nothing to the count. -/
theorem sqlCount_leftJoin (db : DB) (p : Playlist) :
    sqlCount (leftJoinSongs db p) = membershipCount db p.id := by
  unfold sqlCount leftJoinSongs membershipCount
  by_cases h : (db.playlist_songs.filter (fun r => r.playlist_id == p.id)).isEmpty
  · rw [List.isEmpty_iff] at h
    simp [h]
  · simp only [h, if_false, Bool.false_eq_true]
    rw [List.filter_eq_self.mpr]
    · simp
    · intro a ha
      obtain ⟨b, _, rfl⟩ := List.mem_map.mp ha
      rfl

/-- Counterexample to C9: on `dbA`, the emitted row for Ana's playlist
is `{id, nombre, user_id, created_at, song_count}` — it exposes
`user_id` and `created_at` and names the count `song_count` — which
differs from the spec's claimed `{id, nombre, songCount}` shape. -/
theorem listPlaylists_shape_counterexample :
    listPlaylists dbA 1 ≠ specListPlaylists dbA 1
    ∧ listPlaylists dbA 1
      = ⟨200, .playlistsB [[("id", .vNat 1), ("nombre", .vStr "Road Trip"),
          ("user_id", .vNat 1), ("created_at", .vNat 0),
          ("song_count", .vNat 1)]]⟩ := by
  refine ⟨?_, ?_⟩ <;> decide

/-- C9 amended: `listPlaylists` responds 200 with one row per playlist
of the caller, in stored order, each row carrying the playlist columns
`id`, `nombre`, `user_id`, `created_at` plus the aggregate keyed
`song_count` (not `songCount`), whose value is the number of
`playlist_songs` rows currently associated with that playlist, computed
from the database at read time. -/
theorem listPlaylists_counts_current_memberships (db : DB) (uid : Nat) :
    (listPlaylists db uid).status = 200
    ∧ (listPlaylists db uid).body
      = .playlistsB ((db.playlists.filter (fun p => p.user_id == uid)).map
          (fun p => playlistRowFields p (membershipCount db p.id))) := by
  refine ⟨rfl, ?_⟩
  unfold listPlaylists
  simp only [sqlCount_leftJoin]

/-- C10: a successful login responds 200 with the user object holding
exactly the fields `id`, `email`, `nombre`; provided the stored hash
differs from the email and display name (as a bcrypt hash does), no
field value equals the stored password hash. -/
theorem login_success_body_exact (bcompare : String → String → Bool)
    (db : DB) (email password secret : String) (now : Nat) (u : User)
    (hu : findUserByEmail db email = some u)
    (hpw : bcompare password u.password = true) :
    (login bcompare db email password secret now).1
      = ⟨200, .userB [("id", .vNat u.id), ("email", .vStr u.email),
                      ("nombre", .vStr u.nombre)]⟩
    ∧ [("id", Val.vNat u.id), ("email", Val.vStr u.email),
       ("nombre", Val.vStr u.nombre)].map Prod.fst = ["id", "email", "nombre"]
    ∧ (u.password ≠ u.email → u.password ≠ u.nombre →
        ∀ kv ∈ [("id", Val.vNat u.id), ("email", Val.vStr u.email),
                ("nombre", Val.vStr u.nombre)], kv.2 ≠ Val.vStr u.password) := by
  refine ⟨by simp [login, hu, hpw], rfl, ?_⟩
  intro h1 h2 kv hkv
  simp only [List.mem_cons, List.not_mem_nil, or_false] at hkv
  rcases hkv with rfl | rfl | rfl
  · simp
  · simp
    exact fun h => h1 h.symm
  · simp
    exact fun h => h2 h.symm

/-- Witness for C10: Ana's successful login on `dbA` (bcrypt comparison
modelled as equality of plaintext and stored string) yields exactly the
three fields, none equal to the stored hash `hash1`. -/
theorem login_success_body_exact_witness :
    (login (fun a b => a == b) dbA "ana@x.com" "hash1" "s" 3).1
      = ⟨200, .userB [("id", .vNat 1), ("email", .vStr "ana@x.com"),
                      ("nombre", .vStr "Ana")]⟩
    ∧ ∀ kv ∈ [("id", Val.vNat 1), ("email", Val.vStr "ana@x.com"),
              ("nombre", Val.vStr "Ana")], kv.2 ≠ Val.vStr "hash1" := by
  have h := login_success_body_exact (fun a b => a == b) dbA "ana@x.com"
      "hash1" "s" 3 anaUser (by decide) (by decide)
  exact ⟨h.1, h.2.2 (by decide) (by decide)⟩

end Miunave
